import Mathlib

/-!
Verification development for the sherpa-onnx voice-assistant repository.

The development shallowly embeds the parts of the source that the stated
properties are about:

* `VA` — the orchestrator `VoiceAssistantPipeline` of
  `backend/core/voice_assistant_pipeline.py` together with the state enum,
  the event record and the stage-driving methods.  The opaque external
  collaborators (Silero VAD inference, the sherpa-onnx keyword spotter, and
  the stub ASR/intent/execution/TTS stages, which are asynchronous calls
  that either return a value or raise) are modelled by a per-chunk oracle
  recording their outcomes for that chunk, exactly as the orchestrator code
  observes them.
* `KS` — the wrapper `KeywordSpotter.process_audio_chunk` of
  `backend/core/keyword_spotter.py` (its try/except boundary, decode loop
  and reset discipline), with the opaque `accept_waveform` /
  `decode_stream` / `get_result` calls given by an oracle.
* `XK` — the accumulate-and-slide engine `KWSEngine.stream_detect` of
  `xiaoli/kws.py` (buffering, minimum-window check, sliding-window trim).
* `XV` — the energy-based gate `VADDetector` of `xiaoli/vad.py`
  (adaptive noise level, history, hysteresis, reset).  The floating-point
  RMS/log feature `calculate_energy` is abstracted: the functions take the
  computed energy value (an exact rational) as input.
* `BW` — the per-frame websocket ingress of `backend/main.py`
  (`websocket_endpoint` message handling).
-/

namespace VA

/-- The pipeline state enum `PipelineState` of
`backend/core/voice_assistant_pipeline.py`. -/
inductive PipelineState where
  | idle
  | listening
  | wakeWordDetected
  | speechRecognition
  | intentProcessing
  | executingCommand
  | speaking
deriving DecidableEq, Repr

/-- A `PipelineEvent` as emitted by `_emit_event`: the event type tag and the
pipeline state at emission (`self.state`).  The payload `data` and the wall
clock `timestamp` carry no information the verified properties are about and
are omitted. -/
structure PipelineEvent where
  eventType : String
  state : PipelineState
deriving DecidableEq, Repr

/-- The mutable state of one `VoiceAssistantPipeline` instance that the
orchestration logic reads or writes: `self.state`, `self.is_running`, the
current `self.kws_stream` (modelled by a generation counter: each
`self.kws.create_stream()` call yields the next generation) and the
`last_speech_state` field of the owned `SileroVAD`
(`backend/core/vad_detector.py`), which is the VAD-session state that
`vad.reset()` clears. -/
structure Pipeline where
  state : PipelineState
  isRunning : Bool
  kwsGen : Nat
  lastSpeechState : Option Bool
deriving DecidableEq, Repr

/-- Per-chunk outcomes of the opaque external collaborators, as observed by
the orchestrator:
* `hasSpeech` — the boolean returned by `self.vad.process_audio_chunk`
  (Silero inference is opaque; the wrapper never raises to the caller, it
  returns `True` on internal error);
* `kwsDetect` — the `Optional[str]` returned by
  `self.kws.process_audio_chunk` (the wrapper catches its own exceptions
  and returns `None`, see `KS.processAudioChunk`);
* `asrOutcome` — `ASRModule.start_recognition`: either a `StageError`
  (`Except.error`) or an index choosing the recognized text from
  `sample_texts` (the stub draws it with `np.random.choice`);
* `intentRaises`, `execRaises`, `ttsRaises` — whether
  `recognize_intent` / `execute_command` / `speak` raise a `StageError`
  for this chunk (each stub's computed payload is not observed by any
  verified property). -/
structure ChunkOracle where
  hasSpeech : Bool
  kwsDetect : Option String
  asrOutcome : Except Unit Nat
  intentRaises : Bool
  execRaises : Bool
  ttsRaises : Bool

/-- The `sample_texts` list of `ASRModule.start_recognition`. -/
def sampleTexts : List String :=
  ["今天天气怎么样", "播放音乐", "设置闹钟", "打开灯", "关闭空调"]

/-- Result of running one stage-driving method: the pipeline state afterward,
the events emitted along the way (in emission order), and whether an
unhandled exception escaped toward `process_audio_chunk`. -/
structure StageStep where
  pipeline : Pipeline
  events : List PipelineEvent
  raised : Bool
deriving DecidableEq, Repr

/-- `_reset_to_listening`: set state to `LISTENING`, create a fresh
`kws_stream` (next generation), reset the VAD session
(`last_speech_state = None`), and emit `returned_to_listening`. -/
def resetToListening (p : Pipeline) : Pipeline × PipelineEvent :=
  let p' : Pipeline :=
    { state := PipelineState.listening
      isRunning := p.isRunning
      kwsGen := p.kwsGen + 1
      lastSpeechState := none }
  (p', { eventType := "returned_to_listening", state := p'.state })

/-- `_enter_tts`: set state `SPEAKING`, emit `tts_started`, call
`self.tts.speak` (which may raise a `StageError`), then
`_reset_to_listening`. -/
def enterTts (p : Pipeline) (o : ChunkOracle) : StageStep :=
  let p1 : Pipeline := { p with state := PipelineState.speaking }
  let ev : PipelineEvent := { eventType := "tts_started", state := p1.state }
  if o.ttsRaises then
    { pipeline := p1, events := [ev], raised := true }
  else
    let (p2, ev2) := resetToListening p1
    { pipeline := p2, events := [ev, ev2], raised := false }

/-- `_enter_command_execution`: set state `EXECUTING_COMMAND`, emit
`command_execution_started`, call `self.executor.execute_command` (may
raise), then `_enter_tts`. -/
def enterCommandExecution (p : Pipeline) (o : ChunkOracle) : StageStep :=
  let p1 : Pipeline := { p with state := PipelineState.executingCommand }
  let ev : PipelineEvent :=
    { eventType := "command_execution_started", state := p1.state }
  if o.execRaises then
    { pipeline := p1, events := [ev], raised := true }
  else
    let s := enterTts p1 o
    { s with events := ev :: s.events }

/-- `_enter_intent_processing`: set state `INTENT_PROCESSING`, emit
`intent_processing_started`, call `self.intent.recognize_intent` (may
raise), then `_enter_command_execution`. -/
def enterIntentProcessing (p : Pipeline) (o : ChunkOracle) : StageStep :=
  let p1 : Pipeline := { p with state := PipelineState.intentProcessing }
  let ev : PipelineEvent :=
    { eventType := "intent_processing_started", state := p1.state }
  if o.intentRaises then
    { pipeline := p1, events := [ev], raised := true }
  else
    let s := enterCommandExecution p1 o
    { s with events := ev :: s.events }

/-- `_enter_speech_recognition`: set state `SPEECH_RECOGNITION`, emit
`speech_recognition_started`, call `self.asr.start_recognition` (may raise;
otherwise it returns one of `sample_texts`), then either
`_enter_intent_processing` on a non-empty text or `_reset_to_listening` on
an empty one. -/
def enterSpeechRecognition (p : Pipeline) (o : ChunkOracle) : StageStep :=
  let p1 : Pipeline := { p with state := PipelineState.speechRecognition }
  let ev : PipelineEvent :=
    { eventType := "speech_recognition_started", state := p1.state }
  match o.asrOutcome with
  | Except.error _ => { pipeline := p1, events := [ev], raised := true }
  | Except.ok i =>
      let recognizedText := sampleTexts.getD (i % sampleTexts.length) ""
      if recognizedText ≠ "" then
        let s := enterIntentProcessing p1 o
        { s with events := ev :: s.events }
      else
        let (p2, ev2) := resetToListening p1
        { pipeline := p2, events := [ev, ev2], raised := false }

/-- `_handle_listening_state`: run the chunk through the VAD (whose wrapper
records the last verdict in `last_speech_state`); in both the has-speech and
the no-speech branch `self.kws.process_audio_chunk` is consulted once on the
chunk (detection is deliberately not gated by the VAD verdict).  On a
keyword hit: set state `WAKE_WORD_DETECTED`, emit `wake_word_detected` and
drive `_enter_speech_recognition`; otherwise do nothing.  (The `_audio_count`
logging counter only throttles log lines and is omitted.) -/
def handleListeningState (p : Pipeline) (o : ChunkOracle) : StageStep :=
  let p1 : Pipeline := { p with lastSpeechState := some o.hasSpeech }
  match o.kwsDetect with
  | some _ =>
      let p2 : Pipeline := { p1 with state := PipelineState.wakeWordDetected }
      let ev : PipelineEvent :=
        { eventType := "wake_word_detected", state := p2.state }
      let s := enterSpeechRecognition p2 o
      { s with events := ev :: s.events }
  | none => { pipeline := p1, events := [], raised := false }

/-- Result of one `process_audio_chunk` call: the pipeline afterward, the
events emitted while processing the chunk, and how many times the VAD and
the KeywordSpotter wrapper were invoked on the chunk. -/
structure StepResult where
  pipeline : Pipeline
  events : List PipelineEvent
  vadCalls : Nat
  kwsCalls : Nat
deriving DecidableEq, Repr

/-- `process_audio_chunk`: if the running flag is clear, log a warning and
return untouched.  Otherwise dispatch on the state inside a try/except: in
`LISTENING` run `_handle_listening_state` (the only branch that can raise —
the other branches only log); if an exception reaches this boundary it is
caught and `_reset_to_listening` is applied.  In `SPEECH_RECOGNITION` the
chunk is accepted but not fed anywhere; in every other state it is ignored
with a debug log. -/
def processAudioChunk (p : Pipeline) (o : ChunkOracle) : StepResult :=
  if p.isRunning = false then
    { pipeline := p, events := [], vadCalls := 0, kwsCalls := 0 }
  else if p.state = PipelineState.listening then
    let s := handleListeningState p o
    if s.raised then
      let (p3, ev) := resetToListening s.pipeline
      { pipeline := p3, events := s.events ++ [ev], vadCalls := 1, kwsCalls := 1 }
    else
      { pipeline := s.pipeline, events := s.events, vadCalls := 1, kwsCalls := 1 }
  else
    { pipeline := p, events := [], vadCalls := 0, kwsCalls := 0 }

/-- `stop_pipeline`: unconditionally clear the running flag, set state
`IDLE`, stop the ASR/TTS stubs (pure flag writes on the stubs, not observed
here) and emit `pipeline_stopped`. -/
def stopPipeline (p : Pipeline) : Pipeline × List PipelineEvent :=
  let p' : Pipeline := { p with isRunning := false, state := PipelineState.idle }
  (p', [{ eventType := "pipeline_stopped", state := p'.state }])

/-- Processing a sequence of chunks: fold `process_audio_chunk`, collecting
all emitted events in order. -/
def processChunkSeq (p : Pipeline) : List ChunkOracle → Pipeline × List PipelineEvent
  | [] => (p, [])
  | o :: os =>
      let r := processAudioChunk p o
      let rest := processChunkSeq r.pipeline os
      (rest.1, r.events ++ rest.2)

end VA

namespace KS

/-- One reached iteration of the decode loop inside
`KeywordSpotter.process_audio_chunk` (`backend/core/keyword_spotter.py`):
`self.kws.is_ready(stream)` was true; `decode_stream` may raise;
otherwise `get_result` yields `result` (already normalized to the string
case; on the object case the code reads its `keyword` attribute). -/
structure PollIter where
  decodeRaises : Bool
  result : String
deriving DecidableEq, Repr

/-- Opaque detector behaviour for one chunk: whether
`stream.accept_waveform` raises, and the successive decode-loop iterations
while `is_ready` keeps returning true (the list ends when `is_ready` would
return false). -/
structure SpotterOracle where
  feedRaises : Bool
  iters : List PollIter
deriving DecidableEq, Repr

/-- Outcome of one `KeywordSpotter.process_audio_chunk` call: the returned
`Optional[str]`, and whether `self.kws.reset_stream(stream)` was called on
the session during the call. -/
structure SpotterResult where
  detection : Option String
  streamWasReset : Bool
deriving DecidableEq, Repr

/-- The decode loop: `while is_ready: decode_stream; result = get_result;
if keyword and keyword.strip(): reset_stream; return keyword.strip()`.
A raise inside `decode_stream` propagates to the method's `except` handler,
which logs and returns `None` — without touching the stream. -/
def spotterLoop : List PollIter → SpotterResult
  | [] => { detection := none, streamWasReset := false }
  | it :: rest =>
      if it.decodeRaises then
        { detection := none, streamWasReset := false }
      else if it.result.trim ≠ "" then
        { detection := some it.result.trim, streamWasReset := true }
      else
        spotterLoop rest

/-- `KeywordSpotter.process_audio_chunk`: feed the chunk
(`accept_waveform`), then run the decode loop; any exception raised during
feed or poll is caught by the surrounding `except`, logged, and `None` is
returned. -/
def processAudioChunk (o : SpotterOracle) : SpotterResult :=
  if o.feedRaises then
    { detection := none, streamWasReset := false }
  else
    spotterLoop o.iters

/-- Whether the decode loop, as actually executed, reaches an iteration
whose `decode_stream` raises (iterations after a returned keyword are never
executed). -/
def loopErrorOccurs : List PollIter → Bool
  | [] => false
  | it :: rest =>
      it.decodeRaises || (it.result.trim == "" && loopErrorOccurs rest)

/-- Whether an error is raised during feed or during the executed part of
the poll loop for this chunk. -/
def errorOccurs (o : SpotterOracle) : Bool :=
  o.feedRaises || loopErrorOccurs o.iters

end KS

namespace XK

/-- `min_audio_length` of `KWSEngine` (`xiaoli/kws.py`): one second of
16 kHz audio. -/
def minAudioLength : Nat := 16000

/-- The mutable `KWSEngine` state that `stream_detect` reads or writes:
the accumulation buffer `self.audio_buffer` (samples as exact rationals)
and whether `self.current_stream` is a live stream (`True`) or `None`. -/
structure KWSEngineState where
  audioBuffer : List ℚ
  hasStream : Bool
deriving DecidableEq, Repr

/-- Opaque detector behaviour for one `stream_detect` call: whether each of
the opaque calls inside the try block raises for this call —
`create_stream` (consulted only when `self.current_stream` is `None`),
`accept_waveform`, `decode_stream`, and the `is_ready`/`get_result` pair —
together with the value of `is_ready` after the decode and the string
returned by `get_result` when they complete. -/
structure DetectOracle where
  createRaises : Bool
  feedRaises : Bool
  decodeRaises : Bool
  resultRaises : Bool
  isReady : Bool
  result : String
deriving DecidableEq, Repr

/-- Outcome of one `stream_detect` call: the engine state afterward, the
returned detection (`None` or the keyword dict, of which only the keyword
is observed), and whether the detector (`decode_stream`) was invoked on
this call. -/
structure DetectResult where
  engine : KWSEngineState
  detection : Option String
  decodeInvoked : Bool
deriving DecidableEq, Repr

/-- `np.max(np.abs(chunk))` over the chunk (0 on an empty chunk). -/
def maxAbs (l : List ℚ) : ℚ :=
  l.foldr (fun x m => max |x| m) 0

/-- The normalization step of `stream_detect`: if the peak absolute sample
exceeds 1, divide the chunk by it (the `astype(float32)` cast is a no-op on
the value level). -/
def normalizeChunk (chunk : List ℚ) : List ℚ :=
  if maxAbs chunk > 1 then chunk.map (fun x => x / maxAbs chunk) else chunk

/-- `KWSEngine.stream_detect`: the whole body sits in a try block whose
except handler logs and returns `None`, leaving the fields as the raise
found them.  In order: the normalization (`np.max(np.abs(chunk))` raises on
an empty chunk, before the buffer is extended); extend `self.audio_buffer`
with the normalized chunk; below `min_audio_length` samples return `None`
without touching the detector; create the stream if absent (a raising
`create_stream` leaves the extended buffer and no stream); feed the whole
accumulated buffer (a raising `accept_waveform` leaves the extended buffer)
and `decode_stream` once (likewise on a raise); if `is_ready` holds and the
result's strip is non-empty (likewise on a raise here), reset stream and
buffer and return the keyword; otherwise trim the buffer to the most recent
`min_audio_length` samples only when it exceeds `2 * min_audio_length`, and
return `None` — on every raise path the trim is skipped. -/
def streamDetect (e : KWSEngineState) (chunk : List ℚ) (o : DetectOracle) :
    DetectResult :=
  if chunk.isEmpty = true then
    { engine := e, detection := none, decodeInvoked := false }
  else
    let buf := e.audioBuffer ++ normalizeChunk chunk
    if buf.length < minAudioLength then
      { engine := { audioBuffer := buf, hasStream := e.hasStream }
        detection := none
        decodeInvoked := false }
    else if e.hasStream = false ∧ o.createRaises = true then
      { engine := { audioBuffer := buf, hasStream := false }
        detection := none
        decodeInvoked := false }
    else if o.feedRaises = true then
      { engine := { audioBuffer := buf, hasStream := true }
        detection := none
        decodeInvoked := false }
    else if o.decodeRaises = true then
      { engine := { audioBuffer := buf, hasStream := true }
        detection := none
        decodeInvoked := true }
    else if o.resultRaises = true then
      { engine := { audioBuffer := buf, hasStream := true }
        detection := none
        decodeInvoked := true }
    else if o.isReady = true ∧ o.result.trim ≠ "" then
      { engine := { audioBuffer := [], hasStream := false }
        detection := some o.result.trim
        decodeInvoked := true }
    else
      { engine :=
          { audioBuffer :=
              if buf.length > minAudioLength * 2 then
                buf.drop (buf.length - minAudioLength)
              else buf
            hasStream := true }
        detection := none
        decodeInvoked := true }

end XK

namespace XV

/-- The mutable state of a `VADDetector` (`xiaoli/vad.py`): configuration
fields from `__init__` and the adaptive state (`energy_history`,
`noise_level`, `speech_level`).  The unused `frame_length` / `hop_length`
fields play no role in `is_speech` and are omitted.  Energies are exact
rationals; the floating-point feature `calculate_energy` (RMS + log scale)
is abstracted by taking the computed energy as input. -/
structure VADDetector where
  energyThreshold : ℚ
  historyLength : Nat
  adaptationRate : ℚ
  energyHistory : List ℚ
  noiseLevel : ℚ
  speechLevel : ℚ
deriving DecidableEq, Repr

/-- A `VADDetector()` built with the default constructor arguments. -/
def vadInit : VADDetector :=
  { energyThreshold := 1/100
    historyLength := 10
    adaptationRate := 1/10
    energyHistory := []
    noiseLevel := 1/1000
    speechLevel := 1/100 }

/-- `VADDetector.update_noise_level`: exponential moving average of the
noise floor — full-rate adaptation when the energy is below 3× the tracked
noise level, tenth-rate pure decay otherwise. -/
def updateNoiseLevel (d : VADDetector) (energy : ℚ) : VADDetector :=
  if energy < d.noiseLevel * 3 then
    { d with noiseLevel :=
        (1 - d.adaptationRate) * d.noiseLevel + d.adaptationRate * energy }
  else
    { d with noiseLevel := (1 - d.adaptationRate * (1/10)) * d.noiseLevel }

/-- The threshold `is_speech` compares against:
`max(self.energy_threshold, self.noise_level * 2)` with the noise level
already updated on the current energy. -/
def effectiveThreshold (d : VADDetector) (energy : ℚ) : ℚ :=
  max d.energyThreshold ((updateNoiseLevel d energy).noiseLevel * 2)

/-- Appending the current energy to `energy_history` with `pop(0)` once the
history exceeds `history_length`. -/
def pushHistory (d : VADDetector) (energy : ℚ) : VADDetector :=
  let h := d.energyHistory ++ [energy]
  { d with energyHistory := if d.historyLength < h.length then h.tail else h }

/-- `max` of a sample list (`np.max`-style; 0 on the empty list, which the
call sites never pass). -/
def listMax : List ℚ → ℚ
  | [] => 0
  | x :: xs => xs.foldl max x

/-- `min` of a sample list (0 on the empty list, never passed). -/
def listMin : List ℚ → ℚ
  | [] => 0
  | x :: xs => xs.foldl min x

/-- `np.mean` of a sample list (0 on the empty list, never passed). -/
def listMean (l : List ℚ) : ℚ :=
  l.sum / l.length

/-- The most recent `n` entries of the history (python `l[-n:]`). -/
def lastN (n : Nat) (l : List ℚ) : List ℚ :=
  l.drop (l.length - n)

/-- `VADDetector.is_speech`, at the energy level: update the noise level,
compute the effective threshold, append the energy to the history, then
return `energy > threshold` — except that inside the speech branch the two
hysteresis checks (sudden jump over the last 3 energies, sustained average
over the last 5) may return `True` early; both fall through to
`return is_speech`, so the no-speech branch always returns `False`.
Returns the verdict together with the updated detector state. -/
def isSpeech (d : VADDetector) (energy : ℚ) : Bool × VADDetector :=
  let d1 := updateNoiseLevel d energy
  let threshold := max d.energyThreshold (d1.noiseLevel * 2)
  let d2 := pushHistory d1 energy
  if energy > threshold then
    if 3 ≤ d2.energyHistory.length ∧
        listMax (lastN 3 d2.energyHistory) - listMin (lastN 3 d2.energyHistory) >
          threshold * (1/2) then
      (true, d2)
    else if 5 ≤ d2.energyHistory.length ∧
        listMean (lastN 5 d2.energyHistory) > threshold * (7/10) then
      (true, d2)
    else
      (true, d2)
  else
    (false, d2)

/-- `VADDetector.reset`: clear the history and restore the initial noise
and speech levels (the configured threshold is kept). -/
def reset (d : VADDetector) : VADDetector :=
  { d with energyHistory := [], noiseLevel := 1/1000, speechLevel := 1/100 }

end XV

namespace BW

/-- An audio frame as supplied by the transport (spec §6: a sample array
with a declared sample rate and channel count).  The websocket message of
`backend/main.py` itself carries only `timestamp` and `audioData`; the
declared format fields are carried here so that properties about malformed
(stereo / mismatched-rate) frames can be stated — the handler reads neither
of them. -/
structure TransportFrame where
  timestamp : ℚ
  audioData : List Int
  sampleRate : Nat
  channels : Nat
deriving DecidableEq, Repr

/-- Outcome of handling one websocket audio message in
`websocket_endpoint` (`backend/main.py`): whether
`spotter.process_audio_chunk` was invoked on the frame, the keyword sent
back to the client (if any), and whether the frame was rejected by any
ingress validation (no such branch exists in the handler). -/
structure IngestResult where
  detectorInvoked : Bool
  keywordMessage : Option String
  frameRejected : Bool
deriving DecidableEq, Repr

/-- The per-message body of the receive loop in `websocket_endpoint`:
parse the JSON, take `audioData`, convert `int16 → float32 / 32768`, and
call `spotter.process_audio_chunk(audio_stream, audio_data, SAMPLE_RATE)`
unconditionally — no branch inspects a channel count or compares a declared
rate.  On a detection a `keyword_detected` message is sent back. -/
def handleFrame (f : TransportFrame) (o : KS.SpotterOracle) : IngestResult :=
  let _audio := f.audioData.map (fun s => (s : ℚ) / 32768)
  let r := KS.processAudioChunk o
  { detectorInvoked := true
    keywordMessage := r.detection
    frameRejected := false }

end BW

/-! ## Helper lemmas -/

/-- Every entry of `sample_texts` is a non-empty string, so the stub ASR
never returns an empty text. -/
@[simp] theorem sampleTexts_getD_ne (i : Nat) :
    (VA.sampleTexts[i % VA.sampleTexts.length]?).getD "" ≠ "" := by
  have h : i % 5 = 0 ∨ i % 5 = 1 ∨ i % 5 = 2 ∨ i % 5 = 3 ∨ i % 5 = 4 := by
    omega
  have hlen : VA.sampleTexts.length = 5 := rfl
  rw [hlen]
  rcases h with h | h | h | h | h <;> rw [h] <;> decide

/-- If the executed part of the decode loop raises, the loop result is
"no detection, stream untouched". -/
theorem spotterLoop_error (l : List KS.PollIter)
    (h : KS.loopErrorOccurs l = true) :
    KS.spotterLoop l = { detection := none, streamWasReset := false } := by
  induction l with
  | nil => simp [KS.loopErrorOccurs] at h
  | cons it rest ih =>
      unfold KS.loopErrorOccurs at h
      unfold KS.spotterLoop
      by_cases hd : it.decodeRaises = true
      · simp [hd]
      · simp [hd] at h
        obtain ⟨h1, h2⟩ := h
        simp [hd, h1]
        exact ih h2

/-- The peak absolute sample of an all-zero chunk is 0. -/
theorem maxAbs_replicate_zero (n : Nat) :
    XK.maxAbs (List.replicate n (0 : ℚ)) = 0 := by
  induction n with
  | zero => rfl
  | succ k ih =>
      simp only [List.replicate_succ, XK.maxAbs, List.foldr_cons]
      rw [show List.foldr (fun x m => max |x| m) 0 (List.replicate k (0 : ℚ)) =
        XK.maxAbs (List.replicate k (0 : ℚ)) from rfl, ih]
      simp

/-- Normalization leaves an all-zero chunk unchanged. -/
theorem normalizeChunk_replicate_zero (n : Nat) :
    XK.normalizeChunk (List.replicate n (0 : ℚ)) = List.replicate n (0 : ℚ) := by
  unfold XK.normalizeChunk
  rw [maxAbs_replicate_zero]
  norm_num

/-- A `stream_detect` call on a non-empty chunk with enough accumulated
audio, no raising detector call, a non-ready detector and a buffer not
exceeding 2W keeps the whole buffer. -/
theorem streamDetect_no_trim (e : XK.KWSEngineState) (chunk : List ℚ)
    (o : XK.DetectOracle)
    (hne : chunk.isEmpty = false)
    (hcr : ¬ (e.hasStream = false ∧ o.createRaises = true))
    (hf : o.feedRaises = false)
    (hd : o.decodeRaises = false)
    (hr : o.resultRaises = false)
    (hready : o.isReady = false)
    (h1 : ¬ (e.audioBuffer ++ XK.normalizeChunk chunk).length <
      XK.minAudioLength)
    (h2 : ¬ (e.audioBuffer ++ XK.normalizeChunk chunk).length >
      XK.minAudioLength * 2) :
    XK.streamDetect e chunk o =
      { engine := ⟨e.audioBuffer ++ XK.normalizeChunk chunk, true⟩,
        detection := none, decodeInvoked := true } := by
  simp only [XK.streamDetect]
  rw [if_neg (by simp [hne]), if_neg h1, if_neg hcr, if_neg (by simp [hf]),
    if_neg (by simp [hd]), if_neg (by simp [hr]), if_neg (by simp [hready]),
    if_neg h2]

/-- A chunk with no keyword detection processed while running in Listening
leaves the machine in Listening, emits nothing, and only refreshes the
VAD's last-verdict memo; the VAD and the detector are each consulted
once. -/
theorem listening_no_keyword_step (p : VA.Pipeline) (o : VA.ChunkOracle)
    (hrun : p.isRunning = true) (hst : p.state = VA.PipelineState.listening)
    (hkw : o.kwsDetect = none) :
    VA.processAudioChunk p o =
      { pipeline := { p with lastSpeechState := some o.hasSpeech },
        events := [], vadCalls := 1, kwsCalls := 1 } := by
  simp [VA.processAudioChunk, hrun, hst, VA.handleListeningState, hkw]

/-- Running a keyword-free chunk sequence from Listening keeps the machine
running in Listening and emits no events at all. -/
theorem seq_no_keyword (os : List VA.ChunkOracle) :
    ∀ p : VA.Pipeline, p.isRunning = true →
      p.state = VA.PipelineState.listening →
      (∀ o ∈ os, o.kwsDetect = none) →
      (VA.processChunkSeq p os).1.state = VA.PipelineState.listening ∧
      (VA.processChunkSeq p os).1.isRunning = true ∧
      (VA.processChunkSeq p os).2 = [] := by
  induction os with
  | nil => exact fun p h1 h2 _ => ⟨h2, h1, rfl⟩
  | cons o os ih =>
      intro p h1 h2 hall
      have hstep := listening_no_keyword_step p o h1 h2
        (hall o (List.mem_cons_self o os))
      have ihh := ih { p with lastSpeechState := some o.hasSpeech } h1 h2
        (fun o' ho' => hall o' (List.mem_cons_of_mem o ho'))
      simp only [VA.processChunkSeq, hstep, List.nil_append]
      exact ⟨ihh.1, ihh.2.1, ihh.2.2⟩

/-! ## Claim theorems -/

/-- C3: for every pipeline state and every preceding sequence of chunks,
`stop_pipeline` leaves the pipeline with state `IDLE` and the running flag
cleared. -/
theorem C3_stop_yields_idle (p0 : VA.Pipeline) (os : List VA.ChunkOracle) :
    (VA.stopPipeline (VA.processChunkSeq p0 os).1).1.state =
      VA.PipelineState.idle ∧
    (VA.stopPipeline (VA.processChunkSeq p0 os).1).1.isRunning = false :=
  ⟨rfl, rfl⟩

/-- C10: a chunk submitted while the running flag is false is ignored —
the state is unchanged, no event is emitted, and neither the VAD nor the
KeywordDetector is invoked. -/
theorem C10_not_running_noop (p : VA.Pipeline) (o : VA.ChunkOracle)
    (h : p.isRunning = false) :
    VA.processAudioChunk p o =
      { pipeline := p, events := [], vadCalls := 0, kwsCalls := 0 } := by
  simp [VA.processAudioChunk, h]

/-- Witness for C10 at a concrete stopped pipeline and chunk. -/
theorem C10_not_running_noop_witness :
    (VA.Pipeline.mk VA.PipelineState.idle false 3 none).isRunning = false ∧
    VA.processAudioChunk (VA.Pipeline.mk VA.PipelineState.idle false 3 none)
        (VA.ChunkOracle.mk true (some "小莉") (Except.ok 0) false false false) =
      { pipeline := VA.Pipeline.mk VA.PipelineState.idle false 3 none,
        events := [], vadCalls := 0, kwsCalls := 0 } :=
  ⟨rfl, C10_not_running_noop _ _ rfl⟩

/-- C8: immediately after `VADDetector.reset()`, a chunk whose computed
energy lies below the effective threshold (the max of the configured
threshold and twice the freshly updated noise level) is classified as
non-speech. -/
theorem C8_reset_cold_start (d : XV.VADDetector) (energy : ℚ)
    (h : energy < XV.effectiveThreshold (XV.reset d) energy) :
    (XV.isSpeech (XV.reset d) energy).1 = false := by
  unfold XV.effectiveThreshold at h
  have h' : ¬ (energy >
      max (XV.reset d).energyThreshold
        ((XV.updateNoiseLevel (XV.reset d) energy).noiseLevel * 2)) :=
    not_lt.mpr (le_of_lt h)
  simp only [XV.isSpeech]
  rw [if_neg h']

/-- Witness for C8: the default-configured gate, after reset, classifies a
zero-energy chunk as non-speech. -/
theorem C8_reset_cold_start_witness :
    (0 : ℚ) < XV.effectiveThreshold (XV.reset XV.vadInit) 0 ∧
    (XV.isSpeech (XV.reset XV.vadInit) 0).1 = false :=
  ⟨by norm_num [XV.effectiveThreshold, XV.updateNoiseLevel, XV.reset, XV.vadInit],
   C8_reset_cold_start XV.vadInit 0
     (by norm_num [XV.effectiveThreshold, XV.updateNoiseLevel, XV.reset, XV.vadInit])⟩

/-- C9 counterexample: a stereo frame with a mismatched declared rate
(2 channels, 44100 Hz) is not rejected at the websocket ingress — the
handler invokes the detector on it and no validation rejection occurs,
contradicting "the chunk is dropped and never reaches the detector". -/
theorem C9_counterexample :
    (BW.handleFrame (BW.TransportFrame.mk 0 [0, 0] 44100 2)
        (KS.SpotterOracle.mk false [])).detectorInvoked = true ∧
    (BW.handleFrame (BW.TransportFrame.mk 0 [0, 0] 44100 2)
        (KS.SpotterOracle.mk false [])).frameRejected = false :=
  ⟨rfl, rfl⟩

/-- C9 (amended): the websocket ingress of `backend/main.py` performs no
channel-count or sample-rate validation at all — every frame, stereo or
mismatched-rate included, is converted and fed to the detector, and no
ingress rejection path exists. -/
theorem C9_no_ingress_validation (f : BW.TransportFrame)
    (o : KS.SpotterOracle) :
    (BW.handleFrame f o).frameRejected = false ∧
    (BW.handleFrame f o).detectorInvoked = true :=
  ⟨rfl, rfl⟩

/-- C6 counterexample: on a chunk whose `accept_waveform` (feed) raises,
the wrapper returns "no detection" but does not reset the detector
session, contradicting the claimed force-reset. -/
theorem C6_counterexample :
    (KS.processAudioChunk (KS.SpotterOracle.mk true [])).detection = none ∧
    (KS.processAudioChunk (KS.SpotterOracle.mk true [])).streamWasReset = false :=
  ⟨rfl, rfl⟩

/-- C6 (amended): any error raised during feed or during the executed part
of the decode loop is caught at the wrapper boundary and treated as "no
detection for this chunk", but the session is NOT reset on the error path;
`reset_stream` is only called when a keyword is successfully returned. -/
theorem C6_error_caught_no_reset (o : KS.SpotterOracle)
    (h : KS.errorOccurs o = true) :
    (KS.processAudioChunk o).detection = none ∧
    (KS.processAudioChunk o).streamWasReset = false := by
  unfold KS.errorOccurs at h
  unfold KS.processAudioChunk
  by_cases hf : o.feedRaises = true
  · simp [hf]
  · simp [hf] at h ⊢
    rw [spotterLoop_error o.iters h]
    exact ⟨rfl, rfl⟩

/-- Witness for C6 (amended) at a concrete raising feed. -/
theorem C6_error_caught_no_reset_witness :
    KS.errorOccurs (KS.SpotterOracle.mk true []) = true ∧
    (KS.processAudioChunk (KS.SpotterOracle.mk true [])).detection = none ∧
    (KS.processAudioChunk (KS.SpotterOracle.mk true [])).streamWasReset = false :=
  ⟨rfl, C6_error_caught_no_reset _ rfl⟩

/-- C7 counterexample: starting from an empty buffer, an all-zero chunk of
16001 samples (one more than W = 16000) reaches the minimum window, so the
detector is invoked, yet with no detection the buffer afterwards still
holds 16001 samples — more than the most recent W — because the code only
trims when the buffer exceeds 2W.  This contradicts "after every invocation
of the detector the buffer retains only the most recent W samples". -/
theorem C7_counterexample :
    (XK.streamDetect (XK.KWSEngineState.mk [] false)
        (List.replicate 16001 (0 : ℚ))
        (XK.DetectOracle.mk false false false false false
          "")).decodeInvoked = true ∧
    (XK.streamDetect (XK.KWSEngineState.mk [] false)
        (List.replicate 16001 (0 : ℚ))
        (XK.DetectOracle.mk false false false false false
          "")).engine.audioBuffer.length = 16001 := by
  have hbuflen : ((XK.KWSEngineState.mk [] false).audioBuffer ++
      XK.normalizeChunk (List.replicate 16001 (0 : ℚ))).length = 16001 := by
    show (([] : List ℚ) ++
      XK.normalizeChunk (List.replicate 16001 (0 : ℚ))).length = 16001
    simp only [normalizeChunk_replicate_zero, List.nil_append,
      List.length_replicate]
  have key := streamDetect_no_trim (XK.KWSEngineState.mk [] false)
    (List.replicate 16001 (0 : ℚ))
    (XK.DetectOracle.mk false false false false false "") rfl (by simp)
    rfl rfl rfl rfl
    (by rw [hbuflen]; norm_num [XK.minAudioLength])
    (by rw [hbuflen]; norm_num [XK.minAudioLength])
  rw [key]
  exact ⟨rfl, hbuflen⟩

/-- C7 (amended): if the accumulated buffer holds fewer than W = 16000
samples the detector is not invoked and the call returns no result.  For a
non-empty chunk on a call where no opaque detector call raises, the buffer
is trimmed to the most recent W samples only when it exceeds 2W (on a
detection it is cleared entirely), so such a call leaves at most 2W = 32000
samples.  On a call where a detector call raises, the except handler
returns no detection with the already-extended buffer left untrimmed, so
the 2W bound holds only across non-raising calls and the buffer can grow
past it under raises. -/
theorem C7_accumulate_and_slide (e : XK.KWSEngineState) (chunk : List ℚ)
    (o : XK.DetectOracle) :
    ((e.audioBuffer ++ XK.normalizeChunk chunk).length < XK.minAudioLength →
      (XK.streamDetect e chunk o).decodeInvoked = false ∧
      (XK.streamDetect e chunk o).detection = none) ∧
    (chunk.isEmpty = false → o.createRaises = false → o.feedRaises = false →
      o.decodeRaises = false → o.resultRaises = false →
      ((XK.streamDetect e chunk o).decodeInvoked = true →
        (XK.streamDetect e chunk o).detection = none →
        (e.audioBuffer ++ XK.normalizeChunk chunk).length >
          XK.minAudioLength * 2 →
        (XK.streamDetect e chunk o).engine.audioBuffer.length =
          XK.minAudioLength) ∧
      (XK.streamDetect e chunk o).engine.audioBuffer.length ≤
        XK.minAudioLength * 2) ∧
    (¬ (e.audioBuffer ++ XK.normalizeChunk chunk).length <
        XK.minAudioLength →
      ((e.hasStream = false ∧ o.createRaises = true) ∨
        o.feedRaises = true ∨ o.decodeRaises = true ∨
        o.resultRaises = true) →
      (XK.streamDetect e chunk o).engine.audioBuffer =
        e.audioBuffer ++ XK.normalizeChunk chunk) := by
  refine ⟨?_, ?_, ?_⟩
  · intro hlt
    simp only [XK.streamDetect]
    by_cases hne : chunk.isEmpty = true
    · rw [if_pos hne]
      exact ⟨rfl, rfl⟩
    · rw [if_neg hne, if_pos hlt]
      exact ⟨rfl, rfl⟩
  · intro hne hcr hf hd hr
    have hcr' : ¬ (e.hasStream = false ∧ o.createRaises = true) := by
      simp [hcr]
    simp only [XK.streamDetect]
    rw [if_neg (by simp [hne])]
    by_cases h1 : (e.audioBuffer ++ XK.normalizeChunk chunk).length <
        XK.minAudioLength
    · rw [if_pos h1]
      refine ⟨fun h => absurd h (by simp), ?_⟩
      show (e.audioBuffer ++ XK.normalizeChunk chunk).length ≤
        XK.minAudioLength * 2
      unfold XK.minAudioLength at h1 ⊢
      omega
    · rw [if_neg h1, if_neg hcr', if_neg (by simp [hf]),
        if_neg (by simp [hd]), if_neg (by simp [hr])]
      by_cases h2 : o.isReady = true ∧ o.result.trim ≠ ""
      · rw [if_pos h2]
        refine ⟨fun _ hdet => absurd hdet (by simp), ?_⟩
        show ([] : List ℚ).length ≤ XK.minAudioLength * 2
        simp
      · rw [if_neg h2]
        refine ⟨fun _ _ hgt => ?_, ?_⟩
        · show (if (e.audioBuffer ++ XK.normalizeChunk chunk).length >
                XK.minAudioLength * 2 then
              (e.audioBuffer ++ XK.normalizeChunk chunk).drop
                ((e.audioBuffer ++ XK.normalizeChunk chunk).length -
                  XK.minAudioLength)
            else e.audioBuffer ++ XK.normalizeChunk chunk).length =
            XK.minAudioLength
          rw [if_pos hgt, List.length_drop]
          unfold XK.minAudioLength at h1 hgt ⊢
          omega
        · show (if (e.audioBuffer ++ XK.normalizeChunk chunk).length >
                XK.minAudioLength * 2 then
              (e.audioBuffer ++ XK.normalizeChunk chunk).drop
                ((e.audioBuffer ++ XK.normalizeChunk chunk).length -
                  XK.minAudioLength)
            else e.audioBuffer ++ XK.normalizeChunk chunk).length ≤
            XK.minAudioLength * 2
          by_cases h3 : (e.audioBuffer ++ XK.normalizeChunk chunk).length >
              XK.minAudioLength * 2
          · rw [if_pos h3, List.length_drop]
            unfold XK.minAudioLength at h1 h3 ⊢
            omega
          · rw [if_neg h3]
            unfold XK.minAudioLength at h3 ⊢
            omega
  · intro h1 hdisj
    cases chunk with
    | nil =>
        show ({ engine := e, detection := none, decodeInvoked := false } :
            XK.DetectResult).engine.audioBuffer =
          e.audioBuffer ++ XK.normalizeChunk []
        simp [XK.normalizeChunk, XK.maxAbs]
    | cons a l =>
        simp only [XK.streamDetect]
        rw [if_neg (by simp), if_neg h1]
        by_cases hB : e.hasStream = false ∧ o.createRaises = true
        · rw [if_pos hB]
        · rw [if_neg hB]
          by_cases hF : o.feedRaises = true
          · rw [if_pos hF]
          · rw [if_neg hF]
            by_cases hD : o.decodeRaises = true
            · rw [if_pos hD]
            · rw [if_neg hD]
              by_cases hR : o.resultRaises = true
              · rw [if_pos hR]
              · rcases hdisj with h | h | h | h
                · exact absurd h hB
                · exact absurd h hF
                · exact absurd h hD
                · exact absurd h hR

/-- Witness for C7 (amended) at a below-window non-raising call: an
8000-sample chunk on an empty buffer accumulates without invoking the
detector, and the buffer stays within the bound. -/
theorem C7_accumulate_and_slide_witness :
    ((XK.KWSEngineState.mk [] false).audioBuffer ++
        XK.normalizeChunk (List.replicate 8000 (0 : ℚ))).length <
      XK.minAudioLength ∧
    ((XK.streamDetect (XK.KWSEngineState.mk [] false)
        (List.replicate 8000 (0 : ℚ))
        (XK.DetectOracle.mk false false false false false
          "")).decodeInvoked = false ∧
      (XK.streamDetect (XK.KWSEngineState.mk [] false)
        (List.replicate 8000 (0 : ℚ))
        (XK.DetectOracle.mk false false false false false
          "")).detection = none) ∧
    (XK.streamDetect (XK.KWSEngineState.mk [] false)
        (List.replicate 8000 (0 : ℚ))
        (XK.DetectOracle.mk false false false false false
          "")).engine.audioBuffer.length ≤
      XK.minAudioLength * 2 := by
  have hlt : ((XK.KWSEngineState.mk [] false).audioBuffer ++
      XK.normalizeChunk (List.replicate 8000 (0 : ℚ))).length <
        XK.minAudioLength := by
    show (([] : List ℚ) ++
      XK.normalizeChunk (List.replicate 8000 (0 : ℚ))).length <
        XK.minAudioLength
    simp only [normalizeChunk_replicate_zero, List.nil_append,
      List.length_replicate, XK.minAudioLength]
    norm_num
  have h := C7_accumulate_and_slide (XK.KWSEngineState.mk [] false)
    (List.replicate 8000 (0 : ℚ))
    (XK.DetectOracle.mk false false false false false "")
  exact ⟨hlt, h.1 hlt, (h.2.1 rfl rfl rfl rfl rfl).2⟩

/-- C1: a chunk processed while running in Listening on which the detector
wrapper reports a keyword and no stage raises produces exactly the ordered
event sequence wake_word_detected, speech_recognition_started,
intent_processing_started, command_execution_started, tts_started,
returned_to_listening, and leaves the pipeline in Listening. -/
theorem C1_wake_cycle (p : VA.Pipeline) (o : VA.ChunkOracle) (kw : String)
    (i : Nat)
    (hrun : p.isRunning = true)
    (hst : p.state = VA.PipelineState.listening)
    (hkw : o.kwsDetect = some kw)
    (hasr : o.asrOutcome = Except.ok i)
    (hintent : o.intentRaises = false)
    (hexec : o.execRaises = false)
    (htts : o.ttsRaises = false) :
    (VA.processAudioChunk p o).events.map VA.PipelineEvent.eventType =
      ["wake_word_detected", "speech_recognition_started",
       "intent_processing_started", "command_execution_started",
       "tts_started", "returned_to_listening"] ∧
    (VA.processAudioChunk p o).pipeline.state = VA.PipelineState.listening := by
  simp [VA.processAudioChunk, hrun, hst, VA.handleListeningState, hkw,
    VA.enterSpeechRecognition, hasr, VA.enterIntentProcessing, hintent,
    VA.enterCommandExecution, hexec, VA.enterTts, htts, VA.resetToListening]

/-- Witness for C1 at a concrete Listening pipeline and a keyword hit with
all stages succeeding. -/
theorem C1_wake_cycle_witness :
    (VA.processAudioChunk
        (VA.Pipeline.mk VA.PipelineState.listening true 0 none)
        (VA.ChunkOracle.mk false (some "小莉") (Except.ok 0)
          false false false)).events.map VA.PipelineEvent.eventType =
      ["wake_word_detected", "speech_recognition_started",
       "intent_processing_started", "command_execution_started",
       "tts_started", "returned_to_listening"] ∧
    (VA.processAudioChunk
        (VA.Pipeline.mk VA.PipelineState.listening true 0 none)
        (VA.ChunkOracle.mk false (some "小莉") (Except.ok 0)
          false false false)).pipeline.state = VA.PipelineState.listening :=
  C1_wake_cycle _ _ "小莉" 0 rfl rfl rfl rfl rfl rfl rfl

/-- C4: while running in Listening, if the detector reports no keyword on
any chunk of the sequence, the state is Listening after every prefix, no
event at all is emitted, and in particular no wake_word_detected event. -/
theorem C4_no_keyword_stays_listening (p : VA.Pipeline)
    (pre suf : List VA.ChunkOracle)
    (hrun : p.isRunning = true)
    (hst : p.state = VA.PipelineState.listening)
    (hnone : ∀ o ∈ pre ++ suf, o.kwsDetect = none) :
    (VA.processChunkSeq p pre).1.state = VA.PipelineState.listening ∧
    (VA.processChunkSeq p (pre ++ suf)).2 = [] ∧
    "wake_word_detected" ∉
      (VA.processChunkSeq p (pre ++ suf)).2.map
        VA.PipelineEvent.eventType := by
  have h1 := seq_no_keyword pre p hrun hst
    (fun o ho => hnone o (List.mem_append_left suf ho))
  have h2 := seq_no_keyword (pre ++ suf) p hrun hst hnone
  refine ⟨h1.1, h2.2.2, ?_⟩
  rw [h2.2.2]
  simp

/-- Witness for C4 on a concrete two-chunk keyword-free sequence. -/
theorem C4_no_keyword_stays_listening_witness :
    (∀ o ∈ [VA.ChunkOracle.mk false none (Except.ok 0) false false false] ++
        [VA.ChunkOracle.mk true none (Except.error ()) true true true],
      o.kwsDetect = none) ∧
    (VA.processChunkSeq
        (VA.Pipeline.mk VA.PipelineState.listening true 0 none)
        [VA.ChunkOracle.mk false none (Except.ok 0) false false false]).1.state =
      VA.PipelineState.listening ∧
    (VA.processChunkSeq
        (VA.Pipeline.mk VA.PipelineState.listening true 0 none)
        ([VA.ChunkOracle.mk false none (Except.ok 0) false false false] ++
          [VA.ChunkOracle.mk true none (Except.error ()) true true true])).2 =
      [] :=
  have hnone : ∀ o ∈
      [VA.ChunkOracle.mk false none (Except.ok 0) false false false] ++
        [VA.ChunkOracle.mk true none (Except.error ()) true true true],
      o.kwsDetect = none := by decide
  ⟨hnone,
    (C4_no_keyword_stays_listening _ _ _ rfl rfl hnone).1,
    (C4_no_keyword_stays_listening _ _ _ rfl rfl hnone).2.1⟩

/-- C5: whenever processing a chunk makes the pipeline transition back to
Listening (it emits returned_to_listening, on the normal post-Speaking path
or on the failure-recovery path), the pipeline afterwards is in Listening
with a freshly created detector stream (next generation) and a reset
VoiceActivityGate session. -/
theorem C5_return_to_listening_resets (p : VA.Pipeline) (o : VA.ChunkOracle)
    (hmem : "returned_to_listening" ∈
      (VA.processAudioChunk p o).events.map VA.PipelineEvent.eventType) :
    (VA.processAudioChunk p o).pipeline.state = VA.PipelineState.listening ∧
    (VA.processAudioChunk p o).pipeline.kwsGen = p.kwsGen + 1 ∧
    (VA.processAudioChunk p o).pipeline.lastSpeechState = none := by
  by_cases hrun : p.isRunning = true
  · by_cases hst : p.state = VA.PipelineState.listening
    · rcases hk : o.kwsDetect with _ | kw
      · simp [VA.processAudioChunk, hrun, hst, VA.handleListeningState,
          hk] at hmem
      · rcases hasr : o.asrOutcome with e | i <;>
          cases hint : o.intentRaises <;> cases hexe : o.execRaises <;>
          cases htts : o.ttsRaises <;>
        simp [VA.processAudioChunk, hrun, hst, VA.handleListeningState, hk,
          VA.enterSpeechRecognition, hasr, VA.enterIntentProcessing, hint,
          VA.enterCommandExecution, hexe, VA.enterTts, htts,
          VA.resetToListening]
    · simp [VA.processAudioChunk, hrun, hst] at hmem
  · simp [VA.processAudioChunk, Bool.not_eq_true p.isRunning ▸ hrun] at hmem

/-- Witness for C5 on a concrete completed wake cycle. -/
theorem C5_return_to_listening_resets_witness :
    "returned_to_listening" ∈
      (VA.processAudioChunk
        (VA.Pipeline.mk VA.PipelineState.listening true 4 (some false))
        (VA.ChunkOracle.mk true (some "小莉") (Except.ok 2)
          false false false)).events.map VA.PipelineEvent.eventType ∧
    (VA.processAudioChunk
        (VA.Pipeline.mk VA.PipelineState.listening true 4 (some false))
        (VA.ChunkOracle.mk true (some "小莉") (Except.ok 2)
          false false false)).pipeline.state = VA.PipelineState.listening ∧
    (VA.processAudioChunk
        (VA.Pipeline.mk VA.PipelineState.listening true 4 (some false))
        (VA.ChunkOracle.mk true (some "小莉") (Except.ok 2)
          false false false)).pipeline.kwsGen = 4 + 1 ∧
    (VA.processAudioChunk
        (VA.Pipeline.mk VA.PipelineState.listening true 4 (some false))
        (VA.ChunkOracle.mk true (some "小莉") (Except.ok 2)
          false false false)).pipeline.lastSpeechState = none :=
  have hmem : "returned_to_listening" ∈
      (VA.processAudioChunk
        (VA.Pipeline.mk VA.PipelineState.listening true 4 (some false))
        (VA.ChunkOracle.mk true (some "小莉") (Except.ok 2)
          false false false)).events.map VA.PipelineEvent.eventType := by
    decide
  ⟨hmem, C5_return_to_listening_resets _ _ hmem⟩

/-- C2: a chunk whose processing raises an unhandled exception in a
post-wake stage is caught at the `process_audio_chunk` boundary: exactly
one returned_to_listening recovery event is emitted among the chunk's
events, the pipeline is left running in Listening, and the next chunk is
processed normally (a keyword-free next chunk takes the ordinary Listening
self-loop). -/
theorem C2_stage_failure_recovery (p : VA.Pipeline) (o o' : VA.ChunkOracle)
    (hrun : p.isRunning = true)
    (hst : p.state = VA.PipelineState.listening)
    (hraise : (VA.handleListeningState p o).raised = true)
    (hnext : o'.kwsDetect = none) :
    ((VA.processAudioChunk p o).events.map
        VA.PipelineEvent.eventType).count "returned_to_listening" = 1 ∧
    (VA.processAudioChunk p o).pipeline.state = VA.PipelineState.listening ∧
    (VA.processAudioChunk p o).pipeline.isRunning = true ∧
    VA.processAudioChunk (VA.processAudioChunk p o).pipeline o' =
      { pipeline := { (VA.processAudioChunk p o).pipeline with
          lastSpeechState := some o'.hasSpeech },
        events := [], vadCalls := 1, kwsCalls := 1 } := by
  rcases hk : o.kwsDetect with _ | kw
  · simp [VA.handleListeningState, hk] at hraise
  · rcases hasr : o.asrOutcome with e | i <;>
      cases hint : o.intentRaises <;> cases hexe : o.execRaises <;>
      cases htts : o.ttsRaises <;>
    simp [VA.handleListeningState, hk, VA.enterSpeechRecognition, hasr,
      VA.enterIntentProcessing, hint, VA.enterCommandExecution, hexe,
      VA.enterTts, htts, VA.resetToListening] at hraise <;>
    simp [VA.processAudioChunk, hrun, hst, VA.handleListeningState, hk,
      VA.enterSpeechRecognition, hasr, VA.enterIntentProcessing, hint,
      VA.enterCommandExecution, hexe, VA.enterTts, htts,
      VA.resetToListening, hnext]

/-- Witness for C2 at a concrete ASR stage failure followed by a
keyword-free chunk. -/
theorem C2_stage_failure_recovery_witness :
    (VA.handleListeningState
        (VA.Pipeline.mk VA.PipelineState.listening true 0 none)
        (VA.ChunkOracle.mk true (some "小莉") (Except.error ())
          false false false)).raised = true ∧
    ((VA.processAudioChunk
        (VA.Pipeline.mk VA.PipelineState.listening true 0 none)
        (VA.ChunkOracle.mk true (some "小莉") (Except.error ())
          false false false)).events.map
        VA.PipelineEvent.eventType).count "returned_to_listening" = 1 ∧
    (VA.processAudioChunk
        (VA.Pipeline.mk VA.PipelineState.listening true 0 none)
        (VA.ChunkOracle.mk true (some "小莉") (Except.error ())
          false false false)).pipeline.state = VA.PipelineState.listening :=
  have h := C2_stage_failure_recovery
    (VA.Pipeline.mk VA.PipelineState.listening true 0 none)
    (VA.ChunkOracle.mk true (some "小莉") (Except.error ()) false false false)
    (VA.ChunkOracle.mk false none (Except.ok 0) false false false)
    rfl rfl rfl rfl
  ⟨rfl, h.1, h.2.1⟩
